import Mathlib

/- Shallow embedding of the finquarium proof-of-contribution engine.
   Numeric values (Python floats and Decimals) are modelled as rationals
   with exact arithmetic; timestamps are modelled as rational seconds. -/

/-- Trading statistics, from models/contribution.py TradingStats. -/
structure TradingStats where
  total_volume : ℚ
  transaction_count : ℤ
  unique_assets : List String
  activity_period_days : ℤ
  first_transaction_date : Option ℤ
  last_transaction_date : Option ℤ

/-- Points breakdown, from scoring.py PointsBreakdown. -/
structure PointsBreakdown where
  volume_points : ℤ
  volume_reason : String
  diversity_points : ℤ
  diversity_reason : String
  history_points : ℤ
  history_reason : String
  total_points : ℤ

/-- From scoring.py ContributionScorer.calculate_volume_points. -/
def calculate_volume_points (volume : ℚ) : ℤ × String :=
  if volume ≥ 1000000 then (500, ("500 (1M+ volume)"))
  else if volume ≥ 100000 then (150, ("150 (100k+ volume)"))
  else if volume ≥ 10000 then (50, ("50 (10k+ volume)"))
  else if volume ≥ 1000 then (25, ("25 (1k+ volume)"))
  else if volume ≥ 100 then (5, ("5 (100+ volume)"))
  else (1, ("1 (minimum reward)"))

/-- From scoring.py ContributionScorer.calculate_diversity_points. -/
def calculate_diversity_points (unique_assets : ℕ) : ℤ × String :=
  if unique_assets ≥ 5 then (30, ("30 (5+ assets)"))
  else if unique_assets ≥ 3 then (10, ("10 (3-4 assets)"))
  else (0, ("0 (< 3 assets)"))

/-- From scoring.py ContributionScorer.calculate_history_points. -/
def calculate_history_points (days : ℤ) : ℤ × String :=
  if days ≥ 1095 then (100, ("100 (3+ years)"))
  else if days ≥ 365 then (50, ("50 (1+ year)"))
  else (0, ("0 (< 1 year)"))

/-- From scoring.py ContributionScorer.calculate_score. -/
def calculate_score (stats : TradingStats) : PointsBreakdown :=
  let vp := calculate_volume_points stats.total_volume
  let dp := calculate_diversity_points stats.unique_assets.length
  let hp := calculate_history_points stats.activity_period_days
  { volume_points := vp.1
    volume_reason := vp.2
    diversity_points := dp.1
    diversity_reason := dp.2
    history_points := hp.1
    history_reason := hp.2
    total_points := max (vp.1 + dp.1 + hp.1) 1 }

/-- The minimum score constant from scoring.py normalize_score,
    0.00000158730158730159 written as an exact rational. -/
def min_score : ℚ := (158730158730159 : ℚ) / 100000000000000000000

/-- From scoring.py ContributionScorer.normalize_score. -/
def normalize_score (points : ℤ) (max_points : ℤ) : ℚ :=
  max ((points : ℚ) / (max_points : ℚ)) min_score

/-- Fresh Coinbase statistics dictionary as consumed by
    proof.py Proof.calculate_reward_points. -/
structure CoinbaseStats where
  totalVolume : ℚ
  transactionCount : ℤ
  uniqueAssets : List String
  activityPeriodDays : ℤ

/-- Result of proof.py Proof.calculate_reward_points. -/
structure RewardPoints where
  total_points : ℤ
  breakdown : List (String × String)

/-- From proof.py Proof.calculate_reward_points: volume, diversity and
    history tiers accumulated into points, with no minimum floor. -/
def calculate_reward_points (stats : CoinbaseStats) : RewardPoints :=
  let volume := stats.totalVolume
  let vp : ℤ × List (String × String) :=
    if volume ≥ 1000000 then (500, [(("volume"), ("500 (1M+ volume)"))])
    else if volume ≥ 100000 then (150, [(("volume"), ("150 (100k+ volume)"))])
    else if volume ≥ 10000 then (50, [(("volume"), ("50 (10k+ volume)"))])
    else if volume ≥ 1000 then (25, [(("volume"), ("25 (1k+ volume)"))])
    else if volume ≥ 100 then (5, [(("volume"), ("5 (100+ volume)"))])
    else (0, [])
  let unique_assets := stats.uniqueAssets.length
  let dp : ℤ × List (String × String) :=
    if unique_assets ≥ 5 then (30, [(("diversity"), ("30 (5+ assets)"))])
    else if unique_assets ≥ 3 then (10, [(("diversity"), ("10 (3-4 assets)"))])
    else (0, [])
  let days_active := stats.activityPeriodDays
  let hp : ℤ × List (String × String) :=
    if days_active ≥ 1095 then (100, [(("history"), ("100 (3+ years)"))])
    else if days_active ≥ 365 then (50, [(("history"), ("50 (1+ year)"))])
    else (0, [])
  { total_points := vp.1 + dp.1 + hp.1
    breakdown := vp.2 ++ dp.2 ++ hp.2 }

/-- MAX_POSSIBLE_POINTS constant from proof.py Proof.generate. -/
def MAX_POSSIBLE_POINTS : ℤ := 630

/-- Score computation from proof.py Proof.generate:
    min of total points over MAX_POSSIBLE_POINTS and 1.0. -/
def generateScore (stats : CoinbaseStats) : ℚ :=
  min (((calculate_reward_points stats).total_points : ℚ) / (MAX_POSSIBLE_POINTS : ℚ)) 1

/-- From proof.py Proof._calculate_uniqueness_score: binary scoring. -/
def calculate_uniqueness_score (has_existing_contribution : Bool) : ℚ :=
  if has_existing_contribution then 0 else 1

/-- Ledger effect of one store operation: both
    storage.py StorageService.store_contribution and
    proof.py Proof._store_contribution append a ContributionProof row
    carrying the run score exactly when the score is positive. The
    ledger is the list of historical proof scores for one identity. -/
def store_contribution (ledger : List ℚ) (score : ℚ) : List ℚ :=
  if score > 0 then ledger ++ [score] else ledger

/-- One full run for a fixed identity, per proof.py Proof.generate:
    score the fresh stats, then store. -/
def runOnce (ledger : List ℚ) (stats : CoinbaseStats) : List ℚ :=
  store_contribution ledger (generateScore stats)

/-- Concrete maximal statistics used to exhibit the missing lifetime cap. -/
def c1BigStats : CoinbaseStats :=
  { totalVolume := 2000000
    transactionCount := 10
    uniqueAssets := [("A"), ("B"), ("C"), ("D"), ("E")]
    activityPeriodDays := 2000 }

/-- A ContributionProof row, from models/db.py ContributionProof,
    restricted to the fields read by the lookup. -/
structure ProofRow where
  account_id_hash : String
  score : ℚ
deriving DecidableEq

/-- A UserContribution row, from models/db.py UserContribution,
    restricted to the fields read by the lookup. -/
structure UserContributionRow where
  account_id_hash : String
  transaction_count : ℤ
  total_volume : ℚ
  activity_period_days : ℤ
  unique_assets : ℤ
  latest_score : ℚ
  latest_contribution_at : ℤ
deriving DecidableEq

/-- The two persisted tables consulted by the storage service. -/
structure Db where
  proofs : List ProofRow
  contributions : List UserContributionRow

/-- Lookup result, from models/contribution.py ExistingContribution. -/
structure ExistingContribution where
  times_rewarded : ℕ
  transaction_count : ℤ
  total_volume : ℚ
  activity_period_days : ℤ
  unique_assets : ℤ
  latest_score : ℚ
deriving DecidableEq

/-- Most recent UserContribution row for an identity, ordered by
    latest_contribution_at descending, first row taken. -/
def latestUserContribution (db : Db) (h : String) : Option UserContributionRow :=
  (db.contributions.filter (fun c => c.account_id_hash = h)).foldl
    (fun acc r =>
      match acc with
      | Option.none => Option.some r
      | Option.some a =>
          if r.latest_contribution_at > a.latest_contribution_at then Option.some r else Option.some a)
    Option.none

/-- From storage.py StorageService.check_existing_contribution: query all
    ContributionProof rows for the identity; if any exist, return true
    together with the cumulative score summed over all of them, the count
    of positively scored rows, and the latest snapshot statistics. -/
def check_existing_contribution (db : Db) (h : String) : Bool × Option ExistingContribution :=
  let previous_proofs := db.proofs.filter (fun p => p.account_id_hash = h)
  if previous_proofs.isEmpty then (false, Option.none)
  else
    let total_score := (previous_proofs.map (fun p => p.score)).sum
    let times_rewarded := (previous_proofs.filter (fun p => p.score > 0)).length
    let latest := latestUserContribution db h
    (true, Option.some
      { times_rewarded := times_rewarded
        transaction_count := (latest.map (fun c => c.transaction_count)).getD 0
        total_volume := (latest.map (fun c => c.total_volume)).getD 0
        activity_period_days := (latest.map (fun c => c.activity_period_days)).getD 0
        unique_assets := (latest.map (fun c => c.unique_assets)).getD 0
        latest_score := total_score })

/-- Concrete database used by the lookup witness. -/
def c3Db : Db :=
  { proofs :=
      [ { account_id_hash := ("acct"), score := 1/2 }
      , { account_id_hash := ("other"), score := 1 }
      , { account_id_hash := ("acct"), score := 1/4 } ]
    contributions :=
      [ { account_id_hash := ("acct"), transaction_count := 7, total_volume := 500
          activity_period_days := 10, unique_assets := 1, latest_score := 1/4
          latest_contribution_at := 5 } ] }

/-- A statement transaction, from models/binance.py BinanceTransaction.
    The timestamp is in seconds. -/
structure BTx where
  timestamp : ℚ
  symbol : String
  side : String
  price : ℚ
  quantity : ℚ
  amount : ℚ
  fee : ℚ
  fee_asset : String

/-- A live trade as returned by the exchange API, with the fields read by
    services/binance.py BinanceValidator.validate_transactions. The time
    field is in milliseconds. -/
structure ApiTrade where
  time : ℚ
  price : ℚ
  qty : ℚ
  commission : ℚ
  commissionAsset : String
  isBuyer : Bool

/-- The absolute tolerance 0.00000001 used for numeric comparisons. -/
def tol8 : ℚ := 1 / 100000000

/-- The per-candidate match test from validate_transactions: timestamp
    difference below five seconds, price, quantity and fee within tol8,
    fee asset and buy side exactly equal. -/
def matchesTrade (tx : BTx) (tr : ApiTrade) : Bool :=
  let trade_time := tr.time / 1000
  let time_diff := |tx.timestamp - trade_time|
  let is_buyer := tx.side.toUpper = ("BUY")
  decide (time_diff < 5) && decide (|tx.price - tr.price| < tol8) &&
    decide (|tx.quantity - tr.qty| < tol8) && decide (|tx.fee - tr.commission| < tol8) &&
    decide (tx.fee_asset = tr.commissionAsset) && decide (is_buyer = tr.isBuyer)

/-- Append a transaction to the group of its symbol, keeping the
    insertion order of symbols, as the Python symbol_groups dict does. -/
def insertGroup (groups : List (String × List BTx)) (sym : String) (tx : BTx) :
    List (String × List BTx) :=
  match groups with
  | [] => [(sym, [tx])]
  | (s, l) :: rest =>
      if s = sym then (s, l ++ [tx]) :: rest else (s, l) :: insertGroup rest sym tx

/-- Group statement transactions by symbol in first-appearance order. -/
def groupBySymbol (txs : List BTx) : List (String × List BTx) :=
  txs.foldl (fun g tx => insertGroup g tx.symbol tx) []

/-- The failure message produced for an unmatched statement transaction. -/
def failMessage (sym : String) (t : ℚ) : String :=
  ("Transaction validation failed for ") ++ sym ++ (" at ") ++ toString t

/-- The success message of validate_transactions. -/
def successMessage : String := "All transactions validated successfully"

/-- Per-group loop of validate_transactions: a group whose API trade list
    is empty is skipped; otherwise the first unmatched transaction of the
    group yields a failure return, and if all transactions of the group
    match the loop returns success immediately, without visiting the
    remaining groups. Falling off the loop returns the Python implicit
    None, modelled as Option.none. -/
def validateGroups (groups : List (String × List BTx)) (api : String → List ApiTrade) :
    Option (Bool × String) :=
  match groups with
  | [] => Option.none
  | (sym, txs) :: rest =>
      let api_trades := api sym
      if api_trades.isEmpty then validateGroups rest api
      else
        match txs.find? (fun tx => !(api_trades.any (fun tr => matchesTrade tx tr))) with
        | Option.some tx => Option.some (false, failMessage sym tx.timestamp)
        | Option.none => Option.some (true, successMessage)

/-- From services/binance.py BinanceValidator.validate_transactions. -/
def validate_transactions (txs : List BTx) (api : String → List ApiTrade) :
    Option (Bool × String) :=
  validateGroups (groupBySymbol txs) api

/-- Matching statement transaction for the pair AAA. -/
def c2txA : BTx :=
  { timestamp := 1000, symbol := ("AAA"), side := ("BUY"), price := 1
    quantity := 2, amount := 2, fee := 0, fee_asset := ("BNB") }

/-- Unmatched statement transaction for the pair BBB: its price differs
    from the only live trade by 4. -/
def c2txB : BTx :=
  { timestamp := 2000, symbol := ("BBB"), side := ("BUY"), price := 5
    quantity := 2, amount := 10, fee := 0, fee_asset := ("BNB") }

/-- Live trade matching c2txA. -/
def c2trA : ApiTrade :=
  { time := 1000000, price := 1, qty := 2, commission := 0
    commissionAsset := ("BNB"), isBuyer := true }

/-- Live trade for pair BBB that does not match c2txB. -/
def c2trB : ApiTrade :=
  { time := 2000000, price := 9, qty := 2, commission := 0
    commissionAsset := ("BNB"), isBuyer := true }

/-- Exchange API model for the C2 counterexample. -/
def c2api : String → List ApiTrade :=
  fun s => if s = ("AAA") then [c2trA] else [c2trB]

/-- Single-pair statement transaction used by the C2 witness. -/
def c2wTx : BTx :=
  { timestamp := 500, symbol := ("CCC"), side := ("SELL"), price := 3
    quantity := 1, amount := 3, fee := 0, fee_asset := ("USDT") }

/-- Live trade matching c2wTx. -/
def c2wTr : ApiTrade :=
  { time := 500000, price := 3, qty := 1, commission := 0
    commissionAsset := ("USDT"), isBuyer := false }

/-- Exchange API model for the C2 witness. -/
def c2wApi : String → List ApiTrade := fun _ => [c2wTr]

/-- Statement transaction of the pair P1 for which the API has no trades. -/
def c10tx1 : BTx :=
  { timestamp := 100, symbol := ("P1"), side := ("BUY"), price := 7
    quantity := 1, amount := 7, fee := 0, fee_asset := ("BNB") }

/-- Statement transaction of the pair P2, matched by the API. -/
def c10tx2 : BTx :=
  { timestamp := 200, symbol := ("P2"), side := ("BUY"), price := 4
    quantity := 1, amount := 4, fee := 0, fee_asset := ("BNB") }

/-- Live trade matching c10tx2. -/
def c10tr : ApiTrade :=
  { time := 200000, price := 4, qty := 1, commission := 0
    commissionAsset := ("BNB"), isBuyer := true }

/-- Exchange API model for C10: no trades at all for pair P1. -/
def c10api : String → List ApiTrade :=
  fun s => if s = ("P2") then [c10tr] else []

/-- A Python JSON-style value, as handled by proof.py Proof._validate_data. -/
inductive PyVal where
  | str (s : String)
  | num (q : ℚ)
  | list (l : List PyVal)
  | dict (d : List (String × PyVal))
  | pynone

/-- The Python exceptions that can arise inside _validate_data. KeyError
    and TypeError are caught by its except clause; AttributeError is not. -/
inductive PyErr where
  | keyError
  | typeError
  | attrError
deriving DecidableEq

/-- A hashable Python scalar, usable as a dict key. -/
inductive PyScalar where
  | pstr (s : String)
  | pnum (q : ℚ)
  | pnone
deriving DecidableEq, BEq

mutual

/-- Python equality between values: numbers, strings and None compare by
    value, values of different kinds are unequal, lists pairwise, dicts by
    equal length and every entry of the left found under its key on the
    right. -/
def pyEq : PyVal → PyVal → Bool
  | PyVal.str a, PyVal.str b => decide (a = b)
  | PyVal.num a, PyVal.num b => decide (a = b)
  | PyVal.pynone, PyVal.pynone => true
  | PyVal.list a, PyVal.list b => pyEqL a b
  | PyVal.dict a, PyVal.dict b => decide (a.length = b.length) && pyEqD a b
  | _, _ => false

/-- Pairwise list equality. -/
def pyEqL : List PyVal → List PyVal → Bool
  | [], [] => true
  | x :: xs, y :: ys => pyEq x y && pyEqL xs ys
  | _, _ => false

/-- Every entry of the first dict is matched in the second. -/
def pyEqD : List (String × PyVal) → List (String × PyVal) → Bool
  | [], _ => true
  | (k, v) :: rest, b => pyEqFind k v b && pyEqD rest b

/-- Scan a dict for a key and compare the stored value. -/
def pyEqFind : String → PyVal → List (String × PyVal) → Bool
  | _, _, [] => false
  | k, v, (k2, v2) :: b => if k = k2 then pyEq v v2 else pyEqFind k v b

end

/-- First value stored under a key in a JSON object. -/
def dictFind (d : List (String × PyVal)) (k : String) : Option PyVal :=
  ((d.find? (fun kv => kv.1 == k)).map (fun kv => kv.2))

/-- Python subscript access v[k] with a string key: on a dict a missing
    key raises KeyError; on any non-dict value it raises TypeError. -/
def getItem (v : PyVal) (k : String) : Except PyErr PyVal :=
  match v with
  | PyVal.dict d =>
      match dictFind d k with
      | Option.some x => Except.ok x
      | Option.none => Except.error PyErr.keyError
  | _ => Except.error PyErr.typeError

/-- Python v.get(k): defined on dicts, returning None for a missing key;
    on any other value the attribute lookup raises AttributeError. -/
def pyGet (v : PyVal) (k : String) : Except PyErr PyVal :=
  match v with
  | PyVal.dict d => Except.ok ((dictFind d k).getD PyVal.pynone)
  | _ => Except.error PyErr.attrError

/-- Python truthiness of a value. -/
def pyTruthy : PyVal → Bool
  | PyVal.str s => !(s.isEmpty)
  | PyVal.num q => decide (q ≠ 0)
  | PyVal.list l => !(l.isEmpty)
  | PyVal.dict d => !(d.isEmpty)
  | PyVal.pynone => false

/-- Python len: defined on strings, lists and dicts, TypeError otherwise. -/
def pyLen : PyVal → Except PyErr ℕ
  | PyVal.str s => Except.ok s.length
  | PyVal.list l => Except.ok l.length
  | PyVal.dict d => Except.ok d.length
  | _ => Except.error PyErr.typeError

/-- Python s.encode(): defined on strings only, AttributeError otherwise. -/
def pyEncode : PyVal → Except PyErr String
  | PyVal.str s => Except.ok s
  | _ => Except.error PyErr.attrError

/-- Python iteration: lists yield their items, strings their characters,
    dicts their keys; numbers and None raise TypeError. -/
def pyIter : PyVal → Except PyErr (List PyVal)
  | PyVal.list l => Except.ok l
  | PyVal.str s => Except.ok (s.data.map (fun c => PyVal.str (String.mk [c])))
  | PyVal.dict d => Except.ok (d.map (fun kv => PyVal.str kv.1))
  | _ => Except.error PyErr.typeError

/-- Reduce a value to a hashable dict key: lists and dicts are unhashable
    and raise TypeError. -/
def toScalar : PyVal → Except PyErr PyScalar
  | PyVal.str s => Except.ok (PyScalar.pstr s)
  | PyVal.num q => Except.ok (PyScalar.pnum q)
  | PyVal.pynone => Except.ok PyScalar.pnone
  | _ => Except.error PyErr.typeError

/-- Insert into a scalar-keyed dict, overwriting an existing key in place
    and otherwise appending, as a Python dict comprehension does. -/
def dictInsert (d : List (PyScalar × PyVal)) (k : PyScalar) (v : PyVal) :
    List (PyScalar × PyVal) :=
  match d with
  | [] => [(k, v)]
  | (k2, v2) :: rest =>
      if k2 = k then (k2, v) :: rest else (k2, v2) :: dictInsert rest k v

/-- Lookup in a scalar-keyed dict. -/
def dictLookup (d : List (PyScalar × PyVal)) (k : PyScalar) : Option PyVal :=
  ((d.find? (fun kv => kv.1 == k)).map (fun kv => kv.2))

/-- The dict comprehension keying each transaction by its id field:
    tx subscripting may raise, and the key must be hashable. -/
def buildTxDict (l : List PyVal) (acc : List (PyScalar × PyVal)) :
    Except PyErr (List (PyScalar × PyVal)) :=
  match l with
  | [] => Except.ok acc
  | tx :: rest => do
      let idv ← getItem tx ("id")
      let k ← toScalar idv
      buildTxDict rest (dictInsert acc k tx)

/-- Python subtraction of two values: numbers only, TypeError otherwise. -/
def pySub (a b : PyVal) : Except PyErr ℚ :=
  match a, b with
  | PyVal.num x, PyVal.num y => Except.ok (x - y)
  | _, _ => Except.error PyErr.typeError

/-- One inequality disjunct of the transaction field comparison. -/
def neCheck (a b : Except PyErr PyVal) : Except PyErr Bool := do
  let x ← a
  let y ← b
  pure (!(pyEq x y))

/-- One numeric tolerance disjunct of the transaction field comparison. -/
def numDiffCheck (a b : Except PyErr PyVal) : Except PyErr Bool := do
  let x ← a
  let y ← b
  let d ← pySub x y
  pure (decide (|d| > tol8))

/-- Short-circuiting Python or over possibly raising operands. -/
def pyOr (a b : Except PyErr Bool) : Except PyErr Bool := do
  let x ← a
  if x then pure true else b

/-- The immutable-property mismatch test of _validate_data, a
    short-circuit or over the six field comparisons in source order. -/
def txMismatch (stx ftx : PyVal) : Except PyErr Bool :=
  pyOr (neCheck (getItem stx ("id")) (getItem ftx ("id")))
    (pyOr (neCheck (getItem stx ("type")) (getItem ftx ("type")))
      (pyOr (neCheck (getItem stx ("asset")) (getItem ftx ("asset")))
        (pyOr (numDiffCheck (getItem stx ("quantity")) (getItem ftx ("quantity")))
          (pyOr (neCheck (getItem stx ("native_currency")) (getItem ftx ("native_currency")))
            (numDiffCheck (getItem stx ("native_amount")) (getItem ftx ("native_amount")))))))

/-- The per-transaction loop of _validate_data: a saved id absent from
    the fresh dict returns False, a field mismatch returns False, and the
    loop ends returning True. -/
def compareTxs (saved fresh : List (PyScalar × PyVal)) : Except PyErr Bool :=
  match saved with
  | [] => Except.ok true
  | (k, stx) :: rest =>
      match dictLookup fresh k with
      | Option.none => Except.ok false
      | Option.some ftx => do
          let m ← txMismatch stx ftx
          if m then pure false else compareTxs rest fresh

/-- Body of proof.py Proof._validate_data before its except clause: the
    identity hash comparison, then the keyed transaction comparison. The
    hashF parameter abstracts the sha256 hex digest collaborator. -/
def validateDataCore (hashF : String → String) (saved fresh : PyVal) :
    Except PyErr Bool := do
  let savedUser ← getItem saved ("user")
  let savedUserId ← pyGet savedUser ("id")
  if pyTruthy savedUserId then
    let n ← pyLen savedUserId
    let savedHash ←
      if n = 64 then pure savedUserId
      else do
        let s ← pyEncode savedUserId
        pure (PyVal.str (hashF s))
    let freshUser ← getItem fresh ("user")
    let freshHash ← getItem freshUser ("id_hash")
    if !(pyEq savedHash freshHash) then
      return false
  let savedTxsVal ← getItem saved ("transactions")
  let savedItems ← pyIter savedTxsVal
  let savedTxs ← buildTxDict savedItems []
  let freshTxsVal ← getItem fresh ("transactions")
  let freshItems ← pyIter freshTxsVal
  let freshTxs ← buildTxDict freshItems []
  compareTxs savedTxs freshTxs

/-- proof.py Proof._validate_data: the body wrapped in the except clause
    that turns KeyError and TypeError into False. AttributeError is not
    in the clause and propagates. -/
def validate_data (hashF : String → String) (saved fresh : PyVal) :
    Except PyErr Bool :=
  match validateDataCore hashF saved fresh with
  | Except.ok b => Except.ok b
  | Except.error PyErr.keyError => Except.ok false
  | Except.error PyErr.typeError => Except.ok false
  | Except.error PyErr.attrError => Except.error PyErr.attrError

/-- Identity stand-in for the hash collaborator in concrete runs. -/
def idHash : String → String := fun s => s

/-- Fresh transaction dict used by the C5 counterexample. -/
def c5FreshTx : PyVal :=
  PyVal.dict
    [ (("id"), PyVal.str ("t1"))
    , (("type"), PyVal.str ("buy"))
    , (("asset"), PyVal.str ("BTC"))
    , (("quantity"), PyVal.num 1)
    , (("native_currency"), PyVal.str ("USD"))
    , (("native_amount"), PyVal.num 100) ]

/-- Saved transaction list of the C5 counterexample: empty. -/
def c5SavedTxs : List PyVal := []

/-- Fresh transaction list of the C5 counterexample: one transaction. -/
def c5FreshTxs : List PyVal := [c5FreshTx]

/-- Saved submission of the C5 counterexample. -/
def c5Saved : PyVal :=
  PyVal.dict [(("user"), PyVal.dict []), (("transactions"), PyVal.list c5SavedTxs)]

/-- Fresh dataset of the C5 counterexample. -/
def c5Fresh : PyVal :=
  PyVal.dict [(("user"), PyVal.dict []), (("transactions"), PyVal.list c5FreshTxs)]

/-- Saved submission of the C6 counterexample: the user field holds a
    string, so the get attribute lookup raises AttributeError. -/
def c6Saved : PyVal := PyVal.dict [(("user"), PyVal.str ("bob"))]

/-- Fresh dataset of the C6 counterexample. -/
def c6Fresh : PyVal := PyVal.dict []

/-- Well-formed saved submission on which the core returns ok true. -/
def c6OkSaved : PyVal :=
  PyVal.dict [(("user"), PyVal.dict []), (("transactions"), PyVal.list [])]

/-- Well-formed fresh dataset on which the core returns ok true. -/
def c6OkFresh : PyVal :=
  PyVal.dict [(("transactions"), PyVal.list [])]

lemma sum_runOnce_le (ledger : List ℚ) (stats : CoinbaseStats) :
    ledger.sum ≤ (runOnce ledger stats).sum := by
  unfold runOnce store_contribution
  by_cases h : generateScore stats > 0
  · rw [if_pos h]
    simp only [List.sum_append, List.sum_cons, List.sum_nil, add_zero]
    linarith
  · rw [if_neg h]

lemma reward_points_nonneg (stats : CoinbaseStats) :
    0 ≤ (calculate_reward_points stats).total_points := by
  unfold calculate_reward_points
  dsimp only
  split_ifs <;> norm_num

lemma generateScore_nonneg (stats : CoinbaseStats) : 0 ≤ generateScore stats := by
  unfold generateScore
  apply le_min
  · apply div_nonneg
    · exact_mod_cast reward_points_nonneg stats
    · norm_num [MAX_POSSIBLE_POINTS]
  · norm_num

/-- C1: the claim states that over any sequence of runs the sum of the
    historical proof scores of one identity never decreases and never
    exceeds 1.0. The code satisfies the first half: each run appends a
    score only when it is positive, so the ledger sum is monotone, and
    each individual run score lies in the interval from 0 to 1. The
    lifetime cap does not hold, as the counterexample shows, because
    every run is scored from the fresh statistics alone. -/
theorem c1_sum_monotone_each_run_capped :
    (∀ (ledger : List ℚ) (runs : List CoinbaseStats),
        ledger.sum ≤ (runs.foldl runOnce ledger).sum) ∧
    (∀ stats : CoinbaseStats, 0 ≤ generateScore stats ∧ generateScore stats ≤ 1) := by
  constructor
  · intro ledger runs
    induction runs generalizing ledger with
    | nil => simp
    | cons s rest ih =>
        simp only [List.foldl_cons]
        exact le_trans (sum_runOnce_le ledger s) (ih _)
  · intro stats
    exact ⟨generateScore_nonneg stats, min_le_right _ _⟩

/-- C1 counterexample: two maximal runs for the same identity push the
    cumulative proof score to 2, beyond the claimed lifetime cap of 1. -/
theorem c1_counterexample :
    (List.foldl runOnce [] [c1BigStats, c1BigStats]).sum = 2 ∧
    ¬ ((List.foldl runOnce [] [c1BigStats, c1BigStats]).sum ≤ 1) := by
  have hs : generateScore c1BigStats = 1 := by
    unfold generateScore calculate_reward_points c1BigStats MAX_POSSIBLE_POINTS
    norm_num
  have hsum : (List.foldl runOnce [] [c1BigStats, c1BigStats]).sum = 2 := by
    simp [List.foldl, runOnce, store_contribution, hs]
    norm_num
  exact ⟨hsum, by rw [hsum]; norm_num⟩

/-- C4: the claim states that a previously contributing identity gets a
    slightly discounted positive uniqueness score, never exactly 0. In
    the code the score is binary: 1 for a first contribution and exactly
    0 otherwise. -/
theorem c4_uniqueness_binary :
    calculate_uniqueness_score false = 1 ∧ calculate_uniqueness_score true = 0 := by
  constructor <;> rfl

/-- C4 counterexample: an identity with an existing contribution receives
    a uniqueness score of exactly 0, refuting never exactly 0. -/
theorem c4_counterexample : calculate_uniqueness_score true = 0 := rfl

/-- C7: any TradingStats with volume at least one million, at least five
    unique assets and an activity period of at least 1095 days scores
    exactly 630 total points, 500 plus 30 plus 100. -/
theorem c7_max_points_630 (stats : TradingStats)
    (hv : (1000000 : ℚ) ≤ stats.total_volume)
    (ha : 5 ≤ stats.unique_assets.length)
    (hd : (1095 : ℤ) ≤ stats.activity_period_days) :
    (calculate_score stats).total_points = 630 := by
  have h1 : calculate_volume_points stats.total_volume = (500, ("500 (1M+ volume)")) := by
    unfold calculate_volume_points
    rw [if_pos hv]
  have h2 : calculate_diversity_points stats.unique_assets.length = (30, ("30 (5+ assets)")) := by
    unfold calculate_diversity_points
    rw [if_pos ha]
  have h3 : calculate_history_points stats.activity_period_days = (100, ("100 (3+ years)")) := by
    unfold calculate_history_points
    rw [if_pos hd]
  simp [calculate_score, h1, h2, h3]

/-- C7 witness: a concrete maximal TradingStats scoring 630. -/
theorem c7_max_points_630_witness :
    (calculate_score
      ⟨2000000, 10, [("A"), ("B"), ("C"), ("D"), ("E")], 2000, Option.none, Option.none⟩).total_points = 630 :=
  c7_max_points_630 _ (by norm_num) (by norm_num) (by norm_num)

/-- C8: every TradingStats scores at least one total point, and the
    volume tier awards exactly one point below the 100 volume threshold. -/
theorem c8_minimum_points (stats : TradingStats) :
    1 ≤ (calculate_score stats).total_points ∧
    (stats.total_volume < 100 → (calculate_volume_points stats.total_volume).1 = 1) := by
  constructor
  · simp only [calculate_score]
    exact le_max_right _ _
  · intro h
    unfold calculate_volume_points
    rw [if_neg (not_le.mpr (by linarith)), if_neg (not_le.mpr (by linarith)),
      if_neg (not_le.mpr (by linarith)), if_neg (not_le.mpr (by linarith)),
      if_neg (not_le.mpr h)]

/-- C8 witness: a tiny contribution still scores at least one point and
    its volume tier is the one point minimum. -/
theorem c8_minimum_points_witness :
    1 ≤ (calculate_score ⟨50, 1, [], 0, Option.none, Option.none⟩).total_points ∧
    (calculate_volume_points (50 : ℚ)).1 = 1 := by
  have h := c8_minimum_points ⟨50, 1, [], 0, Option.none, Option.none⟩
  exact ⟨h.1, h.2 (by norm_num)⟩

/-- C9: the claim states the normalized score always lies in the unit
    interval. The code computes max of points over max_points and the
    minimum score with no upper clamp, so the bound holds exactly when
    points does not exceed max_points; the counterexample shows a value
    of 2 otherwise. -/
theorem c9_normalize_bounds (points max_points : ℤ)
    (h0 : 0 ≤ points) (h1 : 0 < max_points) (h2 : points ≤ max_points) :
    normalize_score points max_points = max ((points : ℚ) / (max_points : ℚ)) min_score ∧
    0 ≤ normalize_score points max_points ∧ normalize_score points max_points ≤ 1 := by
  refine ⟨rfl, ?_, ?_⟩
  · unfold normalize_score
    have hm : (0 : ℚ) ≤ min_score := by norm_num [min_score]
    exact le_trans hm (le_max_right _ _)
  · unfold normalize_score
    apply max_le
    · rw [div_le_one (by exact_mod_cast h1)]
      exact_mod_cast h2
    · norm_num [min_score]

/-- C9 witness: three points out of 630 normalize into the unit interval. -/
theorem c9_normalize_bounds_witness :
    0 ≤ normalize_score 3 630 ∧ normalize_score 3 630 ≤ 1 := by
  have h := c9_normalize_bounds 3 630 (by norm_num) (by norm_num) (by norm_num)
  exact ⟨h.2.1, h.2.2⟩

/-- C3: for an identity with at least one ContributionProof row the
    lookup returns exists true and a cumulative score equal to the sum of
    the scores of all historical proof rows of that identity. -/
theorem c3_cumulative_lookup (db : Db) (h : String)
    (hne : db.proofs.filter (fun p => p.account_id_hash = h) ≠ []) :
    (check_existing_contribution db h).1 = true ∧
    ∃ ec, (check_existing_contribution db h).2 = Option.some ec ∧
      ec.latest_score =
        ((db.proofs.filter (fun p => p.account_id_hash = h)).map (fun p => p.score)).sum := by
  have hni : (db.proofs.filter (fun p => p.account_id_hash = h)).isEmpty = false := by
    simpa [List.isEmpty_iff] using hne
  simp only [check_existing_contribution, hni, Bool.false_eq_true, if_false]
  exact ⟨trivial, _, rfl, rfl⟩

/-- C3 witness: an identity with two proof rows of scores one half and
    one quarter gets a cumulative score of three quarters. -/
theorem c3_cumulative_lookup_witness :
    (check_existing_contribution c3Db ("acct")).1 = true ∧
    ∃ ec, (check_existing_contribution c3Db ("acct")).2 = Option.some ec ∧
      ec.latest_score =
        ((c3Db.proofs.filter (fun p => p.account_id_hash = ("acct"))).map (fun p => p.score)).sum :=
  c3_cumulative_lookup c3Db ("acct") (by decide)

lemma foldl_insertGroup_single (sym : String) :
    ∀ (ts : List BTx) (l : List BTx), (∀ tx ∈ ts, tx.symbol = sym) →
      List.foldl (fun g tx => insertGroup g tx.symbol tx) [(sym, l)] ts = [(sym, l ++ ts)] := by
  intro ts
  induction ts with
  | nil => intro l _; simp
  | cons t rest ih =>
      intro l hall
      have ht : t.symbol = sym := hall t (List.mem_cons_self t rest)
      have hrest : ∀ tx ∈ rest, tx.symbol = sym := fun tx hx => hall tx (List.mem_cons_of_mem t hx)
      have hstep : insertGroup [(sym, l)] t.symbol t = [(sym, l ++ [t])] := by
        rw [ht]
        simp [insertGroup]
      rw [List.foldl_cons, hstep, ih (l ++ [t]) hrest]
      simp

lemma groupBySymbol_single (sym : String) (txs : List BTx)
    (hsym : ∀ tx ∈ txs, tx.symbol = sym) (hne : txs ≠ []) :
    groupBySymbol txs = [(sym, txs)] := by
  match txs, hne with
  | t :: rest, _ =>
      have ht : t.symbol = sym := hsym t (List.mem_cons_self t rest)
      have hrest : ∀ tx ∈ rest, tx.symbol = sym := fun tx hx => hsym tx (List.mem_cons_of_mem t hx)
      have hstep : insertGroup [] t.symbol t = [(sym, [t])] := by
        rw [ht]
        rfl
      unfold groupBySymbol
      rw [List.foldl_cons, hstep, foldl_insertGroup_single sym rest [t] hrest]
      simp

/-- C2: the claim states that validation fails whenever any statement
    transaction of any pair is unmatched and succeeds only when every
    transaction of every pair matches. That holds only for submissions
    whose transactions all belong to one pair with a nonempty live trade
    list: then an unmatched transaction yields a failure naming the pair
    and the timestamp of the first unmatched transaction, and success
    requires every transaction to match. With several pairs the loop
    returns success after the first pair it checks, see the
    counterexample. -/
theorem c2_single_pair_validation (sym : String) (txs : List BTx)
    (api : String → List ApiTrade)
    (hsym : ∀ tx ∈ txs, tx.symbol = sym) (hne : txs ≠ []) (hapi : api sym ≠ []) :
    ((∀ tx ∈ txs, (api sym).any (fun tr => matchesTrade tx tr) = true) →
        validate_transactions txs api = Option.some (true, successMessage)) ∧
    (∀ tx ∈ txs, (api sym).any (fun tr => matchesTrade tx tr) = false →
        ∃ tx2 ∈ txs, (api sym).any (fun tr => matchesTrade tx2 tr) = false ∧
          validate_transactions txs api = Option.some (false, failMessage sym tx2.timestamp)) := by
  have hg : groupBySymbol txs = [(sym, txs)] := groupBySymbol_single sym txs hsym hne
  have hapi' : (api sym).isEmpty = false := by simpa [List.isEmpty_iff] using hapi
  constructor
  · intro hall
    have hfind : txs.find? (fun tx => !((api sym).any (fun tr => matchesTrade tx tr))) =
        Option.none := by
      rw [List.find?_eq_none]
      intro x hx
      simp [hall x hx]
    unfold validate_transactions
    rw [hg]
    simp only [validateGroups, hapi', Bool.false_eq_true, if_false, hfind]
  · intro tx htx hun
    have hsome : (txs.find? (fun tx => !((api sym).any (fun tr => matchesTrade tx tr)))).isSome := by
      rw [List.find?_isSome]
      exact ⟨tx, htx, by simp [hun]⟩
    obtain ⟨tx2, hfind⟩ := Option.isSome_iff_exists.mp hsome
    have htx2mem : tx2 ∈ txs := List.mem_of_find?_eq_some hfind
    have htx2p : (api sym).any (fun tr => matchesTrade tx2 tr) = false := by
      have := List.find?_some hfind
      simpa using this
    refine ⟨tx2, htx2mem, htx2p, ?_⟩
    unfold validate_transactions
    rw [hg]
    simp only [validateGroups, hapi', Bool.false_eq_true, if_false, hfind]

/-- C2 witness: a single-pair submission whose only transaction matches a
    live trade validates successfully. -/
theorem c2_single_pair_validation_witness :
    validate_transactions [c2wTx] c2wApi = Option.some (true, successMessage) :=
  (c2_single_pair_validation ("CCC") [c2wTx] c2wApi
      (by intro tx hx; simp only [List.mem_singleton] at hx; rw [hx]; rfl)
      (by simp)
      (by simp [c2wApi])).1
    (by intro tx hx; simp only [List.mem_singleton] at hx; rw [hx]; with_unfolding_all rfl)

/-- C2 counterexample: a two-pair submission where the first pair fully
    matches and the second pair has an unmatched transaction is reported
    as fully validated, because the per-pair loop returns success after
    the first pair. -/
theorem c2_counterexample :
    validate_transactions [c2txA, c2txB] c2api = Option.some (true, successMessage) ∧
    (c2api c2txB.symbol).any (fun tr => matchesTrade c2txB tr) = false := by
  constructor <;> with_unfolding_all rfl

/-- C10: a trading pair whose live trade list from the API is empty is
    skipped without comparing any of its statement transactions, and a
    submission containing such a pair can still be reported as fully
    validated, as the concrete two-pair input shows. -/
theorem c10_empty_pair_skipped :
    (∀ (api : String → List ApiTrade) (sym : String) (txs : List BTx)
        (rest : List (String × List BTx)),
        api sym = [] →
        validateGroups ((sym, txs) :: rest) api = validateGroups rest api) ∧
    validate_transactions [c10tx1, c10tx2] c10api = Option.some (true, successMessage) ∧
    c10api c10tx1.symbol = [] := by
  refine ⟨?_, ?_, ?_⟩
  · intro api sym txs rest h
    have hstep : validateGroups ((sym, txs) :: rest) api =
        (let api_trades := api sym;
         if api_trades.isEmpty = true then validateGroups rest api
         else
           match txs.find? (fun tx => !(api_trades.any (fun tr => matchesTrade tx tr))) with
           | Option.some tx => Option.some (false, failMessage sym tx.timestamp)
           | Option.none => Option.some (true, successMessage)) := rfl
    rw [hstep, h]
    rfl
  · with_unfolding_all rfl
  · rfl

/-- C10 witness: the skip equation applied to the concrete empty pair. -/
theorem c10_empty_pair_skipped_witness :
    validateGroups [(("P1"), [c10tx1]), (("P2"), [c10tx2])] c10api =
      validateGroups [(("P2"), [c10tx2])] c10api :=
  c10_empty_pair_skipped.1 c10api ("P1") [c10tx1] [(("P2"), [c10tx2])] rfl

lemma pyOr_ok_false {a b : Except PyErr Bool} :
    pyOr a b = Except.ok false ↔ a = Except.ok false ∧ b = Except.ok false := by
  cases a with
  | error e => simp [pyOr, Bind.bind, Except.bind]
  | ok x => cases x <;> simp [pyOr, Bind.bind, Except.bind, pure, Except.pure]

lemma neCheck_ok_false {a b : Except PyErr PyVal} (h : neCheck a b = Except.ok false) :
    ∃ x y, a = Except.ok x ∧ b = Except.ok y ∧ pyEq x y = true := by
  cases a with
  | error e => simp [neCheck, Bind.bind, Except.bind] at h
  | ok x =>
      cases b with
      | error e => simp [neCheck, Bind.bind, Except.bind, pure, Except.pure] at h
      | ok y =>
          refine ⟨x, y, rfl, rfl, ?_⟩
          have hb : (!(pyEq x y)) = false := by
            simpa [neCheck, Bind.bind, Except.bind, pure, Except.pure] using h
          simpa using hb

lemma numDiffCheck_ok_false {a b : Except PyErr PyVal} (h : numDiffCheck a b = Except.ok false) :
    ∃ x y d, a = Except.ok x ∧ b = Except.ok y ∧ pySub x y = Except.ok d ∧ |d| ≤ tol8 := by
  cases a with
  | error e => simp [numDiffCheck, Bind.bind, Except.bind] at h
  | ok x =>
      cases b with
      | error e => simp [numDiffCheck, Bind.bind, Except.bind, pure, Except.pure] at h
      | ok y =>
          cases hs : pySub x y with
          | error e => simp [numDiffCheck, Bind.bind, Except.bind, hs] at h
          | ok d =>
              refine ⟨x, y, d, rfl, rfl, hs, ?_⟩
              have hb : decide (|d| > tol8) = false := by
                simpa [numDiffCheck, Bind.bind, Except.bind, hs, pure, Except.pure] using h
              exact le_of_not_lt (by simpa using hb)

/-- C5: the claim states a non-match whenever the two transaction lists
    have different cardinality. The code never compares cardinalities: a
    fresh list strictly containing the saved transactions passes, see the
    counterexample. What holds is that a saved transaction id absent from
    the fresh dict prevents a True result, and that a matched pair agrees
    on type and asset under Python equality and on quantity and native
    amount within the 1e-8 tolerance. -/
theorem c5_missing_id_and_field_agreement :
    (∀ savedD freshD : List (PyScalar × PyVal),
        (∃ kv ∈ savedD, dictLookup freshD kv.1 = Option.none) →
        compareTxs savedD freshD ≠ Except.ok true) ∧
    (∀ stx ftx : PyVal, txMismatch stx ftx = Except.ok false →
        (∃ x y, getItem stx ("type") = Except.ok x ∧ getItem ftx ("type") = Except.ok y ∧
          pyEq x y = true) ∧
        (∃ x y, getItem stx ("asset") = Except.ok x ∧ getItem ftx ("asset") = Except.ok y ∧
          pyEq x y = true) ∧
        (∃ x y d, getItem stx ("quantity") = Except.ok x ∧ getItem ftx ("quantity") = Except.ok y ∧
          pySub x y = Except.ok d ∧ |d| ≤ tol8) ∧
        (∃ x y d, getItem stx ("native_amount") = Except.ok x ∧
          getItem ftx ("native_amount") = Except.ok y ∧
          pySub x y = Except.ok d ∧ |d| ≤ tol8)) := by
  constructor
  · intro savedD freshD
    induction savedD with
    | nil =>
        intro hex
        obtain ⟨kv, hm, _⟩ := hex
        exact absurd hm (List.not_mem_nil kv)
    | cons hd rest ih =>
        intro hex
        obtain ⟨kv, hm, hlook⟩ := hex
        obtain ⟨k, stx⟩ := hd
        rcases List.mem_cons.mp hm with heq | hmem
        · rw [heq] at hlook
          simp [compareTxs, hlook]
        · cases hl : dictLookup freshD k with
          | none => simp [compareTxs, hl]
          | some ftx =>
              cases hmm : txMismatch stx ftx with
              | error e => simp [compareTxs, hl, hmm, Bind.bind, Except.bind]
              | ok m =>
                  cases m with
                  | true => simp [compareTxs, hl, hmm, Bind.bind, Except.bind, pure, Except.pure]
                  | false =>
                      have hrec := ih ⟨kv, hmem, hlook⟩
                      simpa [compareTxs, hl, hmm, Bind.bind, Except.bind] using hrec
  · intro stx ftx h
    unfold txMismatch at h
    obtain ⟨h1, h⟩ := pyOr_ok_false.mp h
    obtain ⟨h2, h⟩ := pyOr_ok_false.mp h
    obtain ⟨h3, h⟩ := pyOr_ok_false.mp h
    obtain ⟨h4, h⟩ := pyOr_ok_false.mp h
    obtain ⟨h5, h6⟩ := pyOr_ok_false.mp h
    exact ⟨neCheck_ok_false h2, neCheck_ok_false h3,
      numDiffCheck_ok_false h4, numDiffCheck_ok_false h6⟩

/-- C5 witness: a saved dict with a key absent from an empty fresh dict
    can never compare to True. -/
theorem c5_missing_id_and_field_agreement_witness :
    compareTxs [((PyScalar.pstr ("a")), PyVal.pynone)] [] ≠ Except.ok true :=
  c5_missing_id_and_field_agreement.1 [((PyScalar.pstr ("a")), PyVal.pynone)] []
    ⟨(PyScalar.pstr ("a"), PyVal.pynone), by simp, rfl⟩

/-- C5 counterexample: a saved submission with zero transactions against
    a fresh dataset with one transaction validates as a match even though
    the two lists have different cardinality. -/
theorem c5_counterexample :
    validate_data idHash c5Saved c5Fresh = Except.ok true ∧
    c5SavedTxs.length ≠ c5FreshTxs.length := by
  constructor
  · rfl
  · decide

/-- C6: the claim states _validate_data never raises outward and turns
    any parse or key error into False. The except clause does catch
    KeyError and TypeError and yields False, and a successful comparison
    is returned unchanged, so the only error that can escape is
    AttributeError; the counterexample shows a saved submission whose
    user field is a string makes that happen, so the claim fails as
    stated. -/
theorem c6_fails_closed_on_key_type_errors (hashF : String → String) (saved fresh : PyVal) :
    (∀ b, validateDataCore hashF saved fresh = Except.ok b →
        validate_data hashF saved fresh = Except.ok b) ∧
    (validateDataCore hashF saved fresh = Except.error PyErr.keyError →
        validate_data hashF saved fresh = Except.ok false) ∧
    (validateDataCore hashF saved fresh = Except.error PyErr.typeError →
        validate_data hashF saved fresh = Except.ok false) ∧
    (∀ e, validate_data hashF saved fresh = Except.error e → e = PyErr.attrError) := by
  unfold validate_data
  cases h : validateDataCore hashF saved fresh with
  | ok b => simp
  | error e => cases e <;> simp

/-- C6 witness: a well-formed pair of inputs on which the core comparison
    succeeds is passed through unchanged. -/
theorem c6_fails_closed_on_key_type_errors_witness :
    validate_data idHash c6OkSaved c6OkFresh = Except.ok true :=
  (c6_fails_closed_on_key_type_errors idHash c6OkSaved c6OkFresh).1 true rfl

/-- C6 counterexample: a saved submission whose user field holds a string
    raises AttributeError out of _validate_data instead of returning
    False. -/
theorem c6_counterexample :
    validate_data idHash c6Saved c6Fresh = Except.error PyErr.attrError := rfl

/-- C9 counterexample: 1260 points against a maximum of 630 normalize to
    2, outside the claimed unit interval. -/
theorem c9_counterexample :
    normalize_score 1260 630 = 2 ∧ ¬ (normalize_score 1260 630 ≤ 1) := by
  have h : normalize_score 1260 630 = 2 := by
    unfold normalize_score min_score
    rw [max_eq_left (by norm_num)]
    norm_num
  exact ⟨h, by rw [h]; norm_num⟩
